import Mathlib

/-
Formal model of the ui-smoke orchestrator of this repository.

The definitions below are a shallow embedding of the JavaScript source:
  - src/unnamed/part_000  (the ui-smoke orchestrator: classifyFailure,
    isMissingBrowserBinaryError, isHttpReachabilityError, isBlockedDownloadError,
    navigateWithFallback and its strategy helpers, conclude, main)
  - src/playwright/preflight.mjs (classifyBrowserLaunchError,
    looksLikeMissingBrowserBinary)

JavaScript regular-expression tests used by the classifiers are alternations of
literal substrings under the case-insensitive flag, except one alternative that
uses a single dot-star.  They are modelled by case-insensitive substring search
over the character list of the text, and the dot-star by a search for the first
literal followed by the second literal with no line terminator in between
(a JavaScript dot does not match line terminators).
-/

set_option autoImplicit false

namespace UiSmoke

/-- Lower-case character list of a string; models the effect of the
case-insensitive regex flag (the signature literals are ASCII). -/
def lcData (s : String) : List Char :=
  s.data.map Char.toLower

/-- Substring test over character lists: does the pattern occur contiguously? -/
def containsPat (p : List Char) : List Char → Bool
  | [] => p.isEmpty
  | c :: rest => p.isPrefixOf (c :: rest) || containsPat p rest

/-- Case-insensitive substring test; models a single literal regex alternative
under the i flag, and also String.prototype.includes over lowercased text. -/
def hasSub (pat : String) (s : String) : Bool :=
  containsPat (lcData pat) (lcData s)

/-- Line terminators that a JavaScript dot does not match. -/
def isLineTerminatorChar (c : Char) : Bool :=
  c == '\n' || c == '\r' || c == Char.ofNat 0x2028 || c == Char.ofNat 0x2029

/-- Does the pattern occur after skipping only non-line-terminator characters? -/
def seqNoNl (p : List Char) : List Char → Bool
  | [] => p.isEmpty
  | c :: rest => p.isPrefixOf (c :: rest) || (!isLineTerminatorChar c && seqNoNl p rest)

/-- Test for a regex of shape p1.*p2: somewhere the first literal occurs and the
second literal follows it with no line terminator in between. -/
def matchSeq (p1 p2 : List Char) : List Char → Bool
  | [] => p1.isEmpty && seqNoNl p2 []
  | c :: rest =>
      (p1.isPrefixOf (c :: rest) && seqNoNl p2 (List.drop p1.length (c :: rest)))
        || matchSeq p1 p2 rest

/-- Case-insensitive test for a regex of shape p1.*p2 over a string. -/
def hasSeq (p1 p2 : String) (s : String) : Bool :=
  matchSeq (lcData p1) (lcData p2) (lcData s)

/-- JavaScript values that can reach the error classifiers: null, undefined,
plain strings, and error-like objects carrying optional stack and message
fields plus their String() conversion. -/
inductive JsVal where
  | nullV : JsVal
  | undefinedV : JsVal
  | str : String → JsVal
  | obj : Option String → Option String → String → JsVal
deriving DecidableEq

/-- Model of errorText from part_000:
String(error?.stack || error?.message || error || '').
Optional chaining yields undefined on null/undefined/strings; the or-chain
skips falsy values (undefined and the empty string); String() of null,
undefined or the empty string on the final alternative yields the empty
string, and String() of an object is its conversion text. -/
def errorText : JsVal → String
  | JsVal.nullV => ""
  | JsVal.undefinedV => ""
  | JsVal.str s => s
  | JsVal.obj stack message toStr =>
      match stack with
      | some st =>
          if st ≠ "" then st
          else
            match message with
            | some m => if m ≠ "" then m else toStr
            | none => toStr
      | none =>
          match message with
          | some m => if m ≠ "" then m else toStr
          | none => toStr

/-- Model of isMissingBrowserBinaryError from part_000 restricted to the text
it examines: the regex Executable doesn\x27t exist|please run the following
command to download new browsers|browserType\.launch: Executable|browser not
found|No such file or directory.*playwright with the i flag. -/
def isMissingBrowserBinaryText (t : String) : Bool :=
  hasSub "Executable doesn\x27t exist" t
    || hasSub "please run the following command to download new browsers" t
    || hasSub "browserType.launch: Executable" t
    || hasSub "browser not found" t
    || hasSeq "No such file or directory" "playwright" t

/-- Connectivity signature regex inlined in classifyFailure (part_000):
ERR_EMPTY_RESPONSE|ERR_CONNECTION|ECONNREFUSED|Navigation timeout. -/
def mainConnectivitySig (t : String) : Bool :=
  hasSub "ERR_EMPTY_RESPONSE" t
    || hasSub "ERR_CONNECTION" t
    || hasSub "ECONNREFUSED" t
    || hasSub "Navigation timeout" t

/-- Runtime-crash signature regex inlined in classifyFailure (part_000):
TargetClosedError|BrowserType\.launch|crash|SIGSEGV|Connection terminated
unexpectedly. -/
def mainRuntimeSig (t : String) : Bool :=
  hasSub "TargetClosedError" t
    || hasSub "BrowserType.launch" t
    || hasSub "crash" t
    || hasSub "SIGSEGV" t
    || hasSub "Connection terminated unexpectedly" t

/-- Model of classifyFailure from part_000 over the concatenated error text. -/
def classifyFailureText (t : String) : String :=
  if isMissingBrowserBinaryText t then "binary-installation-failure"
  else if mainConnectivitySig t then "connectivity-failure"
  else if mainRuntimeSig t then "browser-runtime-failure"
  else "application-failure"

/-- Model of classifyFailure from part_000 over an arbitrary JavaScript value:
classifyFailure builds the text with errorText and only consults that text. -/
def classifyFailure (e : JsVal) : String :=
  classifyFailureText (errorText e)

/-- Model of looksLikeMissingBrowserBinary from preflight.mjs: the regex
Executable doesn\x27t exist|browserType\.launch: Executable|please run the
following command to download new browsers|browser not found|failed to launch
browser process with the i flag. -/
def looksLikeMissingBrowserBinaryText (t : String) : Bool :=
  hasSub "Executable doesn\x27t exist" t
    || hasSub "browserType.launch: Executable" t
    || hasSub "please run the following command to download new browsers" t
    || hasSub "browser not found" t
    || hasSub "failed to launch browser process" t

/-- Connectivity signature regex inlined in classifyBrowserLaunchError
(preflight.mjs): ECONNREFUSED|ERR_CONNECTION|ERR_EMPTY_RESPONSE|Navigation
timeout. -/
def preConnectivitySig (t : String) : Bool :=
  hasSub "ECONNREFUSED" t
    || hasSub "ERR_CONNECTION" t
    || hasSub "ERR_EMPTY_RESPONSE" t
    || hasSub "Navigation timeout" t

/-- Runtime-crash signature regex inlined in classifyBrowserLaunchError
(preflight.mjs): TargetClosedError|has been closed|crash|SIGSEGV. -/
def preRuntimeSig (t : String) : Bool :=
  hasSub "TargetClosedError" t
    || hasSub "has been closed" t
    || hasSub "crash" t
    || hasSub "SIGSEGV" t

/-- Model of classifyBrowserLaunchError from preflight.mjs over the error text. -/
def classifyBrowserLaunchErrorText (t : String) : String :=
  if looksLikeMissingBrowserBinaryText t then "binary-installation-failure"
  else if preConnectivitySig t then "connectivity-failure"
  else if preRuntimeSig t then "browser-runtime-failure"
  else "unknown-browser-failure"

/-- Model of isHttpReachabilityError from part_000 over the error text:
ERR_EMPTY_RESPONSE|ERR_CONNECTION|ECONNREFUSED|Connection terminated
unexpectedly|Navigation timeout with the i flag. -/
def isHttpReachabilityErrorText (t : String) : Bool :=
  hasSub "ERR_EMPTY_RESPONSE" t
    || hasSub "ERR_CONNECTION" t
    || hasSub "ECONNREFUSED" t
    || hasSub "Connection terminated unexpectedly" t
    || hasSub "Navigation timeout" t

/-- Model of isBlockedDownloadError from part_000: lowercases the install
output and checks a list of String.prototype.includes tests. -/
def isBlockedDownloadError (t : String) : Bool :=
  hasSub "403" t
    || hasSub "domain forbidden" t
    || hasSub "failed to download" t
    || hasSub "download failed" t
    || hasSub "eai_again" t
    || hasSub "econnreset" t
    || hasSub "enotfound" t
    || hasSub "cdn" t
    || hasSub "network" t

/-- A navigation fallback transition record: part_000 pushes objects of shape
from/to/reason onto diagnostics.navigationFallbacks (timestamps omitted). -/
structure NavFallback where
  fromStrategy : String
  toStrategy : String
  reason : String
deriving DecidableEq

/-- The slice of the diagnostics record mutated by the navigation strategy
engine of part_000 (timestamps omitted; attempts keyed by url and 1-based
attempt number, errors by attempt number and error text). -/
structure NavDiag where
  navigationAttempts : List (String × Nat)
  navigationErrors : List (Nat × String)
  navigationStrategyAttempts : List (String × String)
  navigationFallbacks : List NavFallback
  navigationStrategyUsed : Option String
  navigationHttpOptIn : Bool
deriving DecidableEq

/-- Environment oracle for the navigation engine: the UI_SMOKE_ALLOW_HTTP
variable, the served base url, the outcome of each page.goto call (none means
success, some e means the navigation threw an error with text e), the derived
file url and index path, the outcome of reading index.html, the outcome of
page.setContent, and the base href used for inline injection. -/
structure NavEnv where
  allowHttpVar : Option String
  baseUrl : String
  goto : String → Nat → Option String
  fileUrl : String
  indexHtmlPath : String
  readIndex : Except String String
  setContentResult : Option String
  baseHref : String

/-- Retry loop of gotoWithRetry from part_000: countdown of remaining
attempts, 0-based attempt counter, last error; each iteration records the
attempt, and on error records it and retries; when attempts are exhausted the
last error is rethrown. -/
def gotoLoop (env : NavEnv) (url : String) :
    Nat → Nat → Option String → NavDiag → NavDiag × Except String Unit
  | 0, _, last, d => (d, Except.error (last.getD ""))
  | k + 1, i, _, d =>
      match env.goto url (i + 1) with
      | none =>
          ({ d with navigationAttempts := d.navigationAttempts ++ [(url, i + 1)] },
            Except.ok ())
      | some e =>
          gotoLoop env url k (i + 1) (some e)
            { d with navigationAttempts := d.navigationAttempts ++ [(url, i + 1)],
                     navigationErrors := d.navigationErrors ++ [(i + 1, e)] }

/-- Model of gotoWithRetry from part_000. -/
def gotoWithRetry (env : NavEnv) (url : String) (attempts : Nat) (d : NavDiag) :
    NavDiag × Except String Unit :=
  gotoLoop env url attempts 0 none d

/-- Model of tryHttpStrategy from part_000: record the strategy attempt, retry
navigation three times, and on success mark the strategy as used. -/
def tryHttpStrategy (env : NavEnv) (baseUrl : String) (d : NavDiag) :
    NavDiag × Except String Unit :=
  match gotoWithRetry env baseUrl 3
      { d with navigationStrategyAttempts :=
          d.navigationStrategyAttempts ++ [("HTTP", baseUrl)] } with
  | (d2, Except.ok _) => ({ d2 with navigationStrategyUsed := some "HTTP" }, Except.ok ())
  | (d2, Except.error e) => (d2, Except.error e)

/-- Model of tryFileStrategy from part_000: two attempts against the file url. -/
def tryFileStrategy (env : NavEnv) (d : NavDiag) : NavDiag × Except String Unit :=
  match gotoWithRetry env env.fileUrl 2
      { d with navigationStrategyAttempts :=
          d.navigationStrategyAttempts ++ [("FILE", env.fileUrl)] } with
  | (d2, Except.ok _) => ({ d2 with navigationStrategyUsed := some "FILE" }, Except.ok ())
  | (d2, Except.error e) => (d2, Except.error e)

/-- First-occurrence replacement over character lists, modelling
String.prototype.replace with a string pattern. -/
def replaceFirst (pat rep : List Char) : List Char → List Char
  | [] => []
  | c :: rest =>
      if pat.isPrefixOf (c :: rest) then rep ++ List.drop pat.length (c :: rest)
      else c :: replaceFirst pat rep rest

/-- Model of buildInlineHtml from part_000: insert a base tag after the head
open tag when present, otherwise prepend it (case-sensitive includes). -/
def buildInlineHtml (baseHref indexHtml : String) : String :=
  if containsPat "<head>".data indexHtml.data then
    String.mk (replaceFirst "<head>".data
      ("<head><base href=\"" ++ baseHref ++ "\">").data indexHtml.data)
  else ("<base href=\"" ++ baseHref ++ "\">") ++ indexHtml

/-- Model of tryInlineStrategy from part_000: read index.html (a read failure
propagates before the attempt is recorded), build the inline document, record
the attempt, inject via setContent, and on success mark INLINE as used. -/
def tryInlineStrategy (env : NavEnv) (d : NavDiag) : NavDiag × Except String Unit :=
  match env.readIndex with
  | Except.error e => (d, Except.error e)
  | Except.ok html =>
      let _inlineHtml := buildInlineHtml env.baseHref html
      match env.setContentResult with
      | some e =>
          ({ d with navigationStrategyAttempts :=
              d.navigationStrategyAttempts ++ [("INLINE", env.indexHtmlPath)] },
            Except.error e)
      | none =>
          ({ d with
              navigationStrategyAttempts :=
                d.navigationStrategyAttempts ++ [("INLINE", env.indexHtmlPath)],
              navigationStrategyUsed := some "INLINE" },
            Except.ok ())

/-- The fixed reason string recorded by part_000 when HTTP navigation is not
opted in. -/
def httpDisabledReason : String :=
  "HTTP strategy disabled unless UI_SMOKE_ALLOW_HTTP=1 (default is file-safe mode for remote browser sandboxes)."

/-- The tail of navigateWithFallback from part_000: try the FILE strategy and
on any error record the FILE-to-INLINE transition and try INLINE. -/
def fileThenInline (env : NavEnv) (d : NavDiag) : NavDiag × Except String Unit :=
  match tryFileStrategy env d with
  | (d1, Except.ok _) => (d1, Except.ok ())
  | (d1, Except.error e) =>
      tryInlineStrategy env
        { d1 with navigationFallbacks :=
            d1.navigationFallbacks ++ [⟨"FILE", "INLINE", e⟩] }

/-- Model of navigateWithFallback from part_000: record the opt-in flag; when
HTTP is opted in and a base url exists, try HTTP, record the HTTP-to-FILE
transition on failure and rethrow unless the error is a reachability error;
otherwise record the fixed disabled transition; then fall through to FILE and
INLINE. -/
def navigateWithFallback (env : NavEnv) (d : NavDiag) : NavDiag × Except String Unit :=
  let allowHttp : Bool := env.allowHttpVar == some "1"
  if allowHttp && (env.baseUrl != "") then
    match tryHttpStrategy env env.baseUrl { d with navigationHttpOptIn := allowHttp } with
    | (d1, Except.ok _) => (d1, Except.ok ())
    | (d1, Except.error e) =>
        let d2 := { d1 with navigationFallbacks :=
            d1.navigationFallbacks ++ [⟨"HTTP", "FILE", e⟩] }
        if isHttpReachabilityErrorText e = false then (d2, Except.error e)
        else fileThenInline env d2
  else
    fileThenInline env
      { d with navigationHttpOptIn := allowHttp,
               navigationFallbacks :=
                 d.navigationFallbacks ++ [⟨"HTTP", "FILE", httpDisabledReason⟩] }

/-- Concrete navigation environment without the HTTP opt-in, used to witness
the navigation claims. -/
def navEnvNoHttp : NavEnv :=
  { allowHttpVar := none,
    baseUrl := "http://127.0.0.1:4173/index.html",
    goto := fun _ _ => none,
    fileUrl := "file:///repo/index.html",
    indexHtmlPath := "/repo/index.html",
    readIndex := Except.ok "<head></head>",
    setContentResult := none,
    baseHref := "file:///repo/" }

/-- Concrete navigation environment with the HTTP opt-in in which every
page.goto call throws a non-connectivity error. -/
def navEnvHttpBoom : NavEnv :=
  { allowHttpVar := some "1",
    baseUrl := "http://127.0.0.1:4173/index.html",
    goto := fun _ _ => some "TypeError: boom",
    fileUrl := "file:///repo/index.html",
    indexHtmlPath := "/repo/index.html",
    readIndex := Except.ok "<head></head>",
    setContentResult := none,
    baseHref := "file:///repo/" }

/-- The navigation diagnostics slice as main initialises it. -/
def navDiagInit : NavDiag :=
  { navigationAttempts := [],
    navigationErrors := [],
    navigationStrategyAttempts := [],
    navigationFallbacks := [],
    navigationStrategyUsed := none,
    navigationHttpOptIn := false }

/-- A terminal conclusion as recorded by conclude in part_000: the status and
classification written into the diagnostics record, the process exit code, and
the classification field of the details payload when the call site passes one. -/
structure Conclusion where
  status : String
  classification : String
  exit : Nat
  detailsClassification : Option String
deriving DecidableEq

/-- The scalar slice of the diagnostics record of part_000 that the terminal
conclusion logic reads and writes. -/
structure Diag where
  result : String
  classification : String
  error : Option String
  ci : Bool
  strict : Bool
  envSkipBrowserDownload : Bool
deriving DecidableEq

/-- The mutable state of main around conclusions: the diagnostics slice, the
finalLine variable, process.exitCode, and the ordered list of conclude calls
that have fired. -/
structure MainState where
  diag : Diag
  finalLine : Option Conclusion
  exitCode : Nat
  conclusions : List Conclusion
deriving DecidableEq

/-- Environment oracle for a run of main in part_000: raw environment
variables, whether the playwright import resolves, the two binary-presence
checks, the install command outcome and its combined output text, the selected
host from startServer, the launch errors of failed browser candidates and
whether some candidate launches, and the outcomes of the sanity and app
phases (none means success, some e the thrown error text). -/
structure Env where
  strictVar : Option String
  skipVar : Option String
  ciVar : Option String
  playwrightPresent : Bool
  browsersReadyFirst : Bool
  installOutput : String
  installStatusOk : Bool
  browsersReadySecond : Bool
  selectedHost : Option String
  launchErrors : List String
  launchSucceeds : Bool
  sanityError : Option String
  appError : Option String
deriving DecidableEq

/-- Result of a modelled run: the final state and whether launchBrowser was
invoked. -/
structure MainOut where
  st : MainState
  launchAttempted : Bool
deriving DecidableEq

/-- Model of conclude from part_000: overwrite result and classification,
record the final line, set the process exit code, and log the conclusion. -/
def conclude (st : MainState) (status classification : String)
    (detailsCls : Option String) (exitArg : Nat) : MainState :=
  { diag := { st.diag with result := status, classification := classification },
    finalLine := some ⟨status, classification, exitArg, detailsCls⟩,
    exitCode := exitArg,
    conclusions := st.conclusions ++ [⟨status, classification, exitArg, detailsCls⟩] }

/-- The diagnostics record as main initialises it (list-valued fields that the
conclusion logic never reads are omitted); the environment flags are parsed
exactly as in part_000: CI via equality with true, strict via equality with 1,
and the skip flag via equality with 1 or true. -/
def initDiag (env : Env) : Diag :=
  { result := "running",
    classification := "unknown",
    error := none,
    ci := env.ciVar == some "true",
    strict := env.strictVar == some "1",
    envSkipBrowserDownload := (env.skipVar == some "1") || (env.skipVar == some "true") }

/-- The state of main when it reaches the conclusion machinery. -/
def initState (env : Env) : MainState :=
  { diag := initDiag env, finalLine := none, exitCode := 0, conclusions := [] }

/-- The classification the terminal error handler of main attributes to an
error: the recorded classification, or the classifier output when the record
still holds the initial unknown. -/
def resolvedClassification (d : Diag) (e : String) : String :=
  if d.classification = "unknown" then classifyFailureText e else d.classification

/-- The three field updates at the top of the catch block of main
(lines 550 to 552 of part_000): keep a skipped result, otherwise failed; keep
a previously recorded non-empty error text; resolve an unknown classification
through classifyFailure. -/
def catchUpdatedDiag (d : Diag) (e : String) : Diag :=
  { d with
      result := if d.result = "skipped" then "skipped" else "failed",
      error := some (match d.error with
        | some s => if s = "" then e else s
        | none => e),
      classification := resolvedClassification d e }

/-- Model of the terminal error handler of main (the catch block, lines 549 to
570 of part_000): binary-installation-failure and browser-runtime-failure
classifications conclude skipped with a strict-dependent exit code; every
other classification concludes failed with exit code 1, passing the
classification in the details. -/
def catchHandler (st : MainState) (e : String) : MainState :=
  if (catchUpdatedDiag st.diag e).classification = "binary-installation-failure"
      ∨ (catchUpdatedDiag st.diag e).classification = "browser-runtime-failure" then
    conclude
      { st with diag := { catchUpdatedDiag st.diag e with result := "skipped" } }
      "skipped" "binary-installation-blocked" none
      (if (catchUpdatedDiag st.diag e).strict then 1 else 0)
  else
    conclude { st with diag := catchUpdatedDiag st.diag e }
      "failed" "test-failure" (some (catchUpdatedDiag st.diag e).classification) 1

/-- Model of the finally block of main (lines 571 to 578 of part_000): when a
final line has been recorded the block does nothing; otherwise it concludes
with the local exitCode variable, which is initialised to 0 and never
reassigned, so the ternaries there resolve to passed and success. -/
def finalize (st : MainState) : MainState :=
  match st.finalLine with
  | some _ => st
  | none => conclude st "passed" "success" none 0

/-- Per-candidate effect of launchBrowser in part_000: a launch error with a
missing-binary signature overwrites the classification and result. -/
def launchUpdate (errs : List String) (d : Diag) : Diag :=
  errs.foldl
    (fun acc e =>
      if isMissingBrowserBinaryText e then
        { acc with classification := "binary-installation-failure",
                   result := "browser-binaries-missing" }
      else acc)
    d

/-- Model of the try block of main (lines 505 to 548 of part_000): a missing
selected host records connectivity-failure and failed and throws; a failed
launch over every candidate marks the diagnostics skipped and concludes
failed with test-failure and exit 1; a sanity error propagates unchanged; an
app error records its text and classification before propagating (the catch
of runAppScreenshot); otherwise the run concludes passed.  The Bool component
tells whether launchBrowser was invoked. -/
def tryBody (env : Env) (st : MainState) : MainState × Bool × Except String Unit :=
  match env.selectedHost with
  | none =>
      ({ st with diag := { st.diag with
            classification := "connectivity-failure",
            result := "failed" } },
        false,
        Except.error "Error: Server did not become reachable on 127.0.0.1 or localhost.")
  | some _ =>
      if env.launchSucceeds = false then
        (conclude
          { st with diag := { launchUpdate env.launchErrors st.diag with
              result := "skipped" } }
          "failed" "test-failure" none 1,
          true, Except.ok ())
      else
        match env.sanityError with
        | some e =>
            ({ st with diag := launchUpdate env.launchErrors st.diag },
              true, Except.error e)
        | none =>
            match env.appError with
            | some e =>
                ({ st with diag := { launchUpdate env.launchErrors st.diag with
                    error := some e, classification := classifyFailureText e } },
                  true, Except.error e)
            | none =>
                (conclude { st with diag := launchUpdate env.launchErrors st.diag }
                  "passed" "success" none 0,
                  true, Except.ok ())

/-- The server-and-browser phase of main: run the try block, route a thrown
error through the terminal error handler, then run the finally block. -/
def serverPhase (env : Env) (st : MainState) : MainOut :=
  match tryBody env st with
  | (st1, la, Except.ok _) => { st := finalize st1, launchAttempted := la }
  | (st1, la, Except.error e) =>
      { st := finalize (catchHandler st1 e), launchAttempted := la }

/-- Model of main from part_000 (lines 387 to 578): resolve playwright (a
missing package concludes failed with installable-missing before anything
else), honour the skip-download flag, check browser binaries, run the install
fallback ladder, then enter the server phase. -/
def mainRun (env : Env) : MainOut :=
  if env.playwrightPresent = false then
    { st := conclude
        { initState env with diag := { initDiag env with
            classification := "binary-installation-failure",
            result := "playwright-missing" } }
        "failed" "installable-missing" none 1,
      launchAttempted := false }
  else if (initDiag env).envSkipBrowserDownload then
    { st := conclude (initState env) "skipped" "binary-installation-blocked" none
        (if (initDiag env).strict then 1 else 0),
      launchAttempted := false }
  else if env.browsersReadyFirst then
    serverPhase env (initState env)
  else if env.installStatusOk = false then
    if isBlockedDownloadError env.installOutput then
      { st := conclude (initState env) "skipped" "binary-installation-blocked" none
          (if (initDiag env).strict then 1 else 0),
        launchAttempted := false }
    else if (initDiag env).ci && !(initDiag env).strict then
      { st := conclude (initState env) "skipped" "binary-installation-blocked" none 0,
        launchAttempted := false }
    else
      { st := conclude (initState env) "failed" "installable-missing" none 1,
        launchAttempted := false }
  else if env.browsersReadySecond then
    serverPhase env (initState env)
  else if (initDiag env).ci && !(initDiag env).strict then
    { st := conclude (initState env) "skipped" "binary-installation-blocked" none 0,
      launchAttempted := false }
  else
    { st := conclude (initState env) "failed" "installable-missing" none 1,
      launchAttempted := false }

/-- The exit-code discipline every conclusion of main obeys: passed exits 0,
failed exits 1, skipped exits 1 exactly in strict mode. -/
def okConcl (strict : Bool) (c : Conclusion) : Prop :=
  (c.status = "passed" ∧ c.exit = 0) ∨
  (c.status = "failed" ∧ c.exit = 1) ∨
  (c.status = "skipped" ∧ c.exit = (if strict then 1 else 0))

/-- Environment of a fully successful run: playwright resolves, no skip flag,
binaries present, server reachable, launch, sanity and app phases succeed. -/
def envPass : Env :=
  { strictVar := none, skipVar := none, ciVar := none,
    playwrightPresent := true, browsersReadyFirst := true,
    installOutput := "", installStatusOk := true, browsersReadySecond := true,
    selectedHost := some "127.0.0.1", launchErrors := [], launchSucceeds := true,
    sanityError := none, appError := none }

/-- Environment in which the server never becomes reachable. -/
def envNoHost : Env :=
  { strictVar := none, skipVar := none, ciVar := none,
    playwrightPresent := true, browsersReadyFirst := true,
    installOutput := "", installStatusOk := true, browsersReadySecond := true,
    selectedHost := none, launchErrors := [], launchSucceeds := true,
    sanityError := none, appError := none }

/-- Environment with the skip-download flag set and playwright resolving. -/
def envSkipSet : Env :=
  { strictVar := none, skipVar := some "1", ciVar := none,
    playwrightPresent := true, browsersReadyFirst := true,
    installOutput := "", installStatusOk := true, browsersReadySecond := true,
    selectedHost := some "127.0.0.1", launchErrors := [], launchSucceeds := true,
    sanityError := none, appError := none }

/-- Environment with the skip-download flag set but the playwright package
missing. -/
def envSkipSetNoPlaywright : Env :=
  { strictVar := none, skipVar := some "1", ciVar := none,
    playwrightPresent := false, browsersReadyFirst := true,
    installOutput := "", installStatusOk := true, browsersReadySecond := true,
    selectedHost := some "127.0.0.1", launchErrors := [], launchSucceeds := true,
    sanityError := none, appError := none }

/-- The state of main at entry of the try block in a plain non-strict run. -/
def stRunning : MainState :=
  { diag := { result := "running", classification := "unknown", error := none,
              ci := false, strict := false, envSkipBrowserDownload := false },
    finalLine := none, exitCode := 0, conclusions := [] }

/-- A state that already carries a recorded final line. -/
def stConcluded : MainState :=
  { diag := { result := "passed", classification := "success", error := none,
              ci := false, strict := false, envSkipBrowserDownload := false },
    finalLine := some ⟨"passed", "success", 0, none⟩, exitCode := 0,
    conclusions := [⟨"passed", "success", 0, none⟩] }

/-- Helper: the two connectivity signature regexes list the same alternatives
in a different order, so they accept exactly the same texts. -/
theorem connectivitySig_agree (t : String) :
    preConnectivitySig t = mainConnectivitySig t := by
  unfold preConnectivitySig mainConnectivitySig
  cases h1 : hasSub "ECONNREFUSED" t <;>
    cases h2 : hasSub "ERR_CONNECTION" t <;>
      cases h3 : hasSub "ERR_EMPTY_RESPONSE" t <;>
        cases h4 : hasSub "Navigation timeout" t <;> simp [h1, h2, h3, h4]

/-- Helper: the retry loop only appends to the per-attempt logs; it never
touches strategy attempts, fallbacks, the used strategy or the opt-in flag. -/
theorem gotoLoop_preserves (env : NavEnv) (url : String) :
    ∀ (k i : Nat) (last : Option String) (d : NavDiag),
      (gotoLoop env url k i last d).1.navigationStrategyAttempts
          = d.navigationStrategyAttempts ∧
      (gotoLoop env url k i last d).1.navigationFallbacks = d.navigationFallbacks ∧
      (gotoLoop env url k i last d).1.navigationStrategyUsed = d.navigationStrategyUsed ∧
      (gotoLoop env url k i last d).1.navigationHttpOptIn = d.navigationHttpOptIn := by
  intro k
  induction k with
  | zero => intro i last d; exact ⟨rfl, rfl, rfl, rfl⟩
  | succ k ih =>
    intro i last d
    simp only [gotoLoop]
    cases h : env.goto url (i + 1) with
    | none => exact ⟨rfl, rfl, rfl, rfl⟩
    | some e =>
      exact ih (i + 1) (some e)
        { d with navigationAttempts := d.navigationAttempts ++ [(url, i + 1)],
                 navigationErrors := d.navigationErrors ++ [(i + 1, e)] }

/-- Helper: effect of the HTTP strategy on the strategy-level logs. -/
theorem tryHttpStrategy_spec (env : NavEnv) (u : String) (d : NavDiag) :
    (tryHttpStrategy env u d).1.navigationFallbacks = d.navigationFallbacks ∧
    (tryHttpStrategy env u d).1.navigationStrategyAttempts
        = d.navigationStrategyAttempts ++ [("HTTP", u)] ∧
    ((tryHttpStrategy env u d).2 = Except.ok () →
      (tryHttpStrategy env u d).1.navigationStrategyUsed = some "HTTP") ∧
    (∀ e, (tryHttpStrategy env u d).2 = Except.error e →
      (tryHttpStrategy env u d).1.navigationStrategyUsed = d.navigationStrategyUsed) := by
  have hp := gotoLoop_preserves env u 3 0 none
    { d with navigationStrategyAttempts := d.navigationStrategyAttempts ++ [("HTTP", u)] }
  unfold tryHttpStrategy gotoWithRetry
  split
  · rename_i d2 u2 heq
    rw [heq] at hp
    exact ⟨hp.2.1, hp.1, fun _ => rfl, fun e he => by simp at he⟩
  · rename_i d2 e2 heq
    rw [heq] at hp
    exact ⟨hp.2.1, hp.1, fun hok => by simp at hok, fun e he => hp.2.2.1⟩

/-- Helper: effect of the FILE strategy on the strategy-level logs. -/
theorem tryFileStrategy_spec (env : NavEnv) (d : NavDiag) :
    (tryFileStrategy env d).1.navigationFallbacks = d.navigationFallbacks ∧
    ((tryFileStrategy env d).2 = Except.ok () →
      (tryFileStrategy env d).1.navigationStrategyUsed = some "FILE") ∧
    (∀ e, (tryFileStrategy env d).2 = Except.error e →
      (tryFileStrategy env d).1.navigationStrategyUsed = d.navigationStrategyUsed) := by
  have hp := gotoLoop_preserves env env.fileUrl 2 0 none
    { d with navigationStrategyAttempts :=
        d.navigationStrategyAttempts ++ [("FILE", env.fileUrl)] }
  unfold tryFileStrategy gotoWithRetry
  split
  · rename_i d2 u2 heq
    rw [heq] at hp
    exact ⟨hp.2.1, fun _ => rfl, fun e he => by simp at he⟩
  · rename_i d2 e2 heq
    rw [heq] at hp
    exact ⟨hp.2.1, fun hok => by simp at hok, fun e he => hp.2.2.1⟩

/-- Helper: the INLINE strategy never touches fallbacks and sets the used
strategy only to INLINE. -/
theorem tryInlineStrategy_spec (env : NavEnv) (d : NavDiag) :
    (tryInlineStrategy env d).1.navigationFallbacks = d.navigationFallbacks ∧
    ((tryInlineStrategy env d).1.navigationStrategyUsed = d.navigationStrategyUsed ∨
     (tryInlineStrategy env d).1.navigationStrategyUsed = some "INLINE") := by
  unfold tryInlineStrategy
  cases hri : env.readIndex with
  | error e => exact ⟨rfl, Or.inl rfl⟩
  | ok html =>
    cases hsc : env.setContentResult with
    | some e => exact ⟨rfl, Or.inl rfl⟩
    | none => exact ⟨rfl, Or.inr rfl⟩

/-- Helper: the FILE and INLINE tail only appends to fallbacks and only marks
FILE or INLINE as used. -/
theorem fileThenInline_spec (env : NavEnv) (d : NavDiag) :
    (∃ l, (fileThenInline env d).1.navigationFallbacks = d.navigationFallbacks ++ l) ∧
    ((fileThenInline env d).1.navigationStrategyUsed = d.navigationStrategyUsed ∨
     (fileThenInline env d).1.navigationStrategyUsed = some "FILE" ∨
     (fileThenInline env d).1.navigationStrategyUsed = some "INLINE") := by
  have hf := tryFileStrategy_spec env d
  unfold fileThenInline
  split
  · rename_i d1 u1 heq
    rw [heq] at hf
    exact ⟨⟨[], by simpa using hf.1⟩, Or.inr (Or.inl (hf.2.1 rfl))⟩
  · rename_i d1 e1 heq
    rw [heq] at hf
    have hi := tryInlineStrategy_spec env
      { d1 with navigationFallbacks := d1.navigationFallbacks ++ [⟨"FILE", "INLINE", e1⟩] }
    refine ⟨⟨[⟨"FILE", "INLINE", e1⟩], ?_⟩, ?_⟩
    · rw [hi.1]
      simpa using hf.1
    · rcases hi.2 with h | h
      · exact Or.inl (by rw [h]; exact hf.2.2 e1 rfl)
      · exact Or.inr (Or.inr h)

/-- Claim C7: when HTTP navigation is not opted in, the first recorded
fallback transition is HTTP to FILE with the fixed disabled-by-default reason
string, and navigationStrategyUsed is never HTTP. -/
theorem http_not_opted_in_first_fallback (env : NavEnv) (d : NavDiag)
    (hA : env.allowHttpVar ≠ some "1")
    (h0 : d.navigationFallbacks = [])
    (h1 : d.navigationStrategyUsed = none) :
    (navigateWithFallback env d).1.navigationFallbacks.head?
        = some ⟨"HTTP", "FILE", httpDisabledReason⟩ ∧
    (navigateWithFallback env d).1.navigationStrategyUsed ≠ some "HTTP" := by
  have hA' : (env.allowHttpVar == some "1") = false := by
    simp [hA]
  have key := fileThenInline_spec env
    { d with navigationHttpOptIn := false,
             navigationFallbacks :=
               d.navigationFallbacks ++ [⟨"HTTP", "FILE", httpDisabledReason⟩] }
  unfold navigateWithFallback
  rw [hA']
  simp only [Bool.false_and, Bool.false_eq_true, if_false]
  constructor
  · rcases key.1 with ⟨l, hl⟩
    rw [hl]
    simp [h0]
  · rcases key.2 with h | h | h <;> rw [h] <;> simp [h1]

/-- Witness for C7 in a concrete environment without the opt-in. -/
theorem http_not_opted_in_first_fallback_witness :
    (navigateWithFallback navEnvNoHttp navDiagInit).1.navigationFallbacks.head?
        = some ⟨"HTTP", "FILE", httpDisabledReason⟩ ∧
    (navigateWithFallback navEnvNoHttp navDiagInit).1.navigationStrategyUsed
        ≠ some "HTTP" :=
  http_not_opted_in_first_fallback navEnvNoHttp navDiagInit (by decide) rfl rfl

/-- Claim C8: when the HTTP strategy is attempted and fails, the engine records
the HTTP-to-FILE transition and then: if the terminal error is not a
connectivity-class reachability error it propagates as a hard failure with no
FILE attempt recorded and the used strategy unchanged; if it is a reachability
error, and only then, the engine falls through to the FILE strategy. -/
theorem http_hard_failure_propagates (env : NavEnv) (d : NavDiag) (e : String)
    (hA : env.allowHttpVar = some "1") (hB : (env.baseUrl != "") = true)
    (hE : (tryHttpStrategy env env.baseUrl
        { d with navigationHttpOptIn := true }).2 = Except.error e) :
    (isHttpReachabilityErrorText e = false →
      (navigateWithFallback env d).2 = Except.error e ∧
      (navigateWithFallback env d).1.navigationStrategyAttempts
          = d.navigationStrategyAttempts ++ [("HTTP", env.baseUrl)] ∧
      (navigateWithFallback env d).1.navigationStrategyUsed
          = d.navigationStrategyUsed) ∧
    (isHttpReachabilityErrorText e = true →
      navigateWithFallback env d =
        fileThenInline env
          { (tryHttpStrategy env env.baseUrl { d with navigationHttpOptIn := true }).1 with
            navigationFallbacks :=
              (tryHttpStrategy env env.baseUrl
                  { d with navigationHttpOptIn := true }).1.navigationFallbacks
                ++ [⟨"HTTP", "FILE", e⟩] }) := by
  have hA' : (env.allowHttpVar == some "1") = true := by
    simp [hA]
  have hs := tryHttpStrategy_spec env env.baseUrl { d with navigationHttpOptIn := true }
  unfold navigateWithFallback
  rw [hA']
  simp only [Bool.true_and, hB, if_true]
  split
  · rename_i d1 u1 heq
    rw [heq] at hE
    simp at hE
  · rename_i d1 e1 heq
    rw [heq] at hE hs
    have he1 : e1 = e := by simpa using hE
    subst he1
    constructor
    · intro hR
      rw [hR]
      refine ⟨by simp, ?_, ?_⟩
      · exact hs.2.1
      · exact hs.2.2.2 e1 rfl
    · intro hR
      rw [hR, heq]
      simp

/-- Witness for C8: with the opt-in set and every goto failing with a
non-connectivity TypeError, the error propagates and no FILE attempt occurs. -/
theorem http_hard_failure_propagates_witness :
    (navigateWithFallback navEnvHttpBoom navDiagInit).2
        = Except.error "TypeError: boom" ∧
    (navigateWithFallback navEnvHttpBoom navDiagInit).1.navigationStrategyAttempts
        = navDiagInit.navigationStrategyAttempts ++ [("HTTP", navEnvHttpBoom.baseUrl)] ∧
    (navigateWithFallback navEnvHttpBoom navDiagInit).1.navigationStrategyUsed
        = navDiagInit.navigationStrategyUsed :=
  (http_hard_failure_propagates navEnvHttpBoom navDiagInit "TypeError: boom"
    rfl rfl rfl).1 rfl

/-- Claim C4: classifyFailure checks its signatures in the fixed priority
order binary-installation first, then connectivity, then runtime-crash, else
the default application-failure; a text matching a binary-installation
signature is classified binary-installation-failure even when connectivity or
runtime signatures are also present, and the preflight classifier gives its
binary signature the same top priority. -/
theorem classifyFailure_priority_order (t : String) :
    (isMissingBrowserBinaryText t = true →
      classifyFailureText t = "binary-installation-failure") ∧
    (isMissingBrowserBinaryText t = false → mainConnectivitySig t = true →
      classifyFailureText t = "connectivity-failure") ∧
    (isMissingBrowserBinaryText t = false → mainConnectivitySig t = false →
      mainRuntimeSig t = true → classifyFailureText t = "browser-runtime-failure") ∧
    (isMissingBrowserBinaryText t = false → mainConnectivitySig t = false →
      mainRuntimeSig t = false → classifyFailureText t = "application-failure") ∧
    (looksLikeMissingBrowserBinaryText t = true →
      classifyBrowserLaunchErrorText t = "binary-installation-failure") := by
  refine ⟨fun h1 => ?_, fun h1 h2 => ?_, fun h1 h2 h3 => ?_, fun h1 h2 h3 => ?_,
    fun h1 => ?_⟩ <;>
    simp [classifyFailureText, classifyBrowserLaunchErrorText, h1, *]

/-- Witness for C4 at a text carrying a binary-installation, a connectivity and
a runtime signature at once: the binary classification wins. -/
theorem classifyFailure_priority_order_witness :
    isMissingBrowserBinaryText "Executable doesn\x27t exist ECONNREFUSED crash" = true ∧
    mainConnectivitySig "Executable doesn\x27t exist ECONNREFUSED crash" = true ∧
    mainRuntimeSig "Executable doesn\x27t exist ECONNREFUSED crash" = true ∧
    classifyFailureText "Executable doesn\x27t exist ECONNREFUSED crash"
      = "binary-installation-failure" :=
  ⟨by decide, by decide, by decide,
    (classifyFailure_priority_order "Executable doesn\x27t exist ECONNREFUSED crash").1
      (by decide)⟩

/-- Counterexample to claim C9 as stated: on the text failed to launch browser
process the main classifier falls through to its default application-failure,
but the preflight classifier returns binary-installation-failure, not the
claimed unknown-browser-failure, because its binary signature set contains the
extra alternative failed to launch browser process. -/
theorem classifier_agreement_counterexample :
    classifyFailureText "failed to launch browser process" = "application-failure" ∧
    classifyBrowserLaunchErrorText "failed to launch browser process"
      = "binary-installation-failure" ∧
    ("binary-installation-failure" : String) ≠ "unknown-browser-failure" :=
  ⟨by decide, by decide, by decide⟩

/-- Claim C9, amended: the two classifiers share the priority structure and
have identical connectivity signatures, but their binary and runtime signature
sets differ; on every text on which the binary and on which the runtime
signature sets agree, the classifications coincide, except that the main
default application-failure becomes unknown-browser-failure in preflight. -/
theorem classifier_agreement_amended (t : String)
    (hb : looksLikeMissingBrowserBinaryText t = isMissingBrowserBinaryText t)
    (hr : preRuntimeSig t = mainRuntimeSig t) :
    classifyBrowserLaunchErrorText t =
      (if classifyFailureText t = "application-failure" then "unknown-browser-failure"
       else classifyFailureText t) := by
  unfold classifyBrowserLaunchErrorText classifyFailureText
  rw [hb, hr, connectivitySig_agree]
  cases h1 : isMissingBrowserBinaryText t <;>
    cases h2 : mainConnectivitySig t <;>
      cases h3 : mainRuntimeSig t <;> simp [h1, h2, h3]

/-- Witness for the amended C9 at the text ECONNREFUSED, on which both binary
signature sets and both runtime signature sets agree. -/
theorem classifier_agreement_amended_witness :
    classifyBrowserLaunchErrorText "ECONNREFUSED" =
      (if classifyFailureText "ECONNREFUSED" = "application-failure"
       then "unknown-browser-failure" else classifyFailureText "ECONNREFUSED") :=
  classifier_agreement_amended "ECONNREFUSED" (by decide) (by decide)

/-- Claim C10: classifyFailure is total over arbitrary JavaScript inputs
(null, undefined, plain strings, objects with or without stack and message
fields) and always returns exactly one of the four taxonomy strings; in
particular it never returns the initial diagnostics value unknown. -/
theorem classifyFailure_total (v : JsVal) :
    (classifyFailure v = "binary-installation-failure" ∨
     classifyFailure v = "connectivity-failure" ∨
     classifyFailure v = "browser-runtime-failure" ∨
     classifyFailure v = "application-failure") ∧
    classifyFailure v ≠ "unknown" := by
  unfold classifyFailure classifyFailureText
  constructor
  · split
    · exact Or.inl rfl
    · split
      · exact Or.inr (Or.inl rfl)
      · split
        · exact Or.inr (Or.inr (Or.inl rfl))
        · exact Or.inr (Or.inr (Or.inr rfl))
  · split
    · decide
    · split
      · decide
      · split <;> decide

/-- Helper: the per-candidate launch updates never touch the strict flag. -/
theorem launchUpdate_strict (errs : List String) (d : Diag) :
    (launchUpdate errs d).strict = d.strict := by
  induction errs generalizing d with
  | nil => rfl
  | cons e rest ih =>
    have h2 := ih (if isMissingBrowserBinaryText e then
      { d with classification := "binary-installation-failure",
               result := "browser-binaries-missing" }
      else d)
    have h3 : (if isMissingBrowserBinaryText e then
        { d with classification := "binary-installation-failure",
                 result := "browser-binaries-missing" }
        else d).strict = d.strict := by
      split <;> rfl
    exact h2.trans h3

/-- Helper: the terminal error handler fires exactly one conclusion, records
it as the final line and exit code, and that conclusion obeys the exit-code
discipline. -/
theorem catchHandler_spec (st : MainState) (e : String) :
    ∃ c : Conclusion,
      (catchHandler st e).conclusions = st.conclusions ++ [c] ∧
      (catchHandler st e).finalLine = some c ∧
      (catchHandler st e).exitCode = c.exit ∧
      okConcl st.diag.strict c := by
  unfold catchHandler
  split
  · exact ⟨⟨"skipped", "binary-installation-blocked",
      if st.diag.strict then 1 else 0, none⟩,
      rfl, rfl, rfl, Or.inr (Or.inr ⟨rfl, rfl⟩)⟩
  · exact ⟨⟨"failed", "test-failure", 1,
      some (catchUpdatedDiag st.diag e).classification⟩,
      rfl, rfl, rfl, Or.inr (Or.inl ⟨rfl, rfl⟩)⟩

/-- Helper: the finally block does nothing once a final line is recorded. -/
theorem finalize_of_finalLine (st : MainState) (c : Conclusion)
    (h : st.finalLine = some c) : finalize st = st := by
  unfold finalize
  rw [h]

/-- Helper: the try block preserves the strict flag; when it throws it fires
no conclusion and leaves the final line alone, and when it returns normally it
fires exactly one conclusion obeying the exit-code discipline. -/
theorem tryBody_spec (env : Env) (st : MainState) :
    (tryBody env st).1.diag.strict = st.diag.strict ∧
    (∀ e, (tryBody env st).2.2 = Except.error e →
      (tryBody env st).1.conclusions = st.conclusions ∧
      (tryBody env st).1.finalLine = st.finalLine) ∧
    ((tryBody env st).2.2 = Except.ok () →
      ∃ c, (tryBody env st).1.conclusions = st.conclusions ++ [c] ∧
        (tryBody env st).1.finalLine = some c ∧
        (tryBody env st).1.exitCode = c.exit ∧
        okConcl st.diag.strict c) := by
  unfold tryBody
  cases hsel : env.selectedHost with
  | none =>
    refine ⟨rfl, fun e he => ⟨rfl, rfl⟩, fun h => ?_⟩
    simp at h
  | some host =>
    by_cases hl : env.launchSucceeds = false
    · rw [if_pos hl]
      refine ⟨?_, fun e he => ?_, fun h => ?_⟩
      · exact launchUpdate_strict env.launchErrors st.diag
      · simp at he
      · exact ⟨⟨"failed", "test-failure", 1, none⟩, rfl, rfl, rfl,
          Or.inr (Or.inl ⟨rfl, rfl⟩)⟩
    · rw [if_neg hl]
      cases hsan : env.sanityError with
      | some e0 =>
        refine ⟨?_, fun e he => ⟨rfl, rfl⟩, fun h => ?_⟩
        · exact launchUpdate_strict env.launchErrors st.diag
        · simp at h
      | none =>
        cases happ : env.appError with
        | some e0 =>
          refine ⟨?_, fun e he => ⟨rfl, rfl⟩, fun h => ?_⟩
          · exact launchUpdate_strict env.launchErrors st.diag
          · simp at h
        | none =>
          refine ⟨?_, fun e he => ?_, fun h => ?_⟩
          · exact launchUpdate_strict env.launchErrors st.diag
          · simp at he
          · exact ⟨⟨"passed", "success", 0, none⟩, rfl, rfl, rfl,
              Or.inl ⟨rfl, rfl⟩⟩

/-- Helper: the server-and-browser phase always produces exactly one more
conclusion, which sets the exit code and obeys the exit-code discipline. -/
theorem serverPhase_spec (env : Env) (st : MainState) :
    ∃ c, (serverPhase env st).st.conclusions = st.conclusions ++ [c] ∧
      (serverPhase env st).st.exitCode = c.exit ∧
      okConcl st.diag.strict c := by
  have ht := tryBody_spec env st
  unfold serverPhase
  split
  · rename_i st1 la u heq
    rw [heq] at ht
    rcases ht.2.2 rfl with ⟨c, h1, h2, h3, h4⟩
    refine ⟨c, ?_, ?_, h4⟩
    · rw [finalize_of_finalLine st1 c h2]
      exact h1
    · rw [finalize_of_finalLine st1 c h2]
      exact h3
  · rename_i st1 la e heq
    rw [heq] at ht
    have hpres := ht.2.1 e rfl
    rcases catchHandler_spec st1 e with ⟨c, h1, h2, h3, h4⟩
    refine ⟨c, ?_, ?_, ?_⟩
    · rw [finalize_of_finalLine _ c h2, h1, hpres.1]
    · rw [finalize_of_finalLine _ c h2]
      exact h3
    · exact ht.1 ▸ h4

/-- Helper: every run of main fires exactly one conclusion, which sets the
process exit code and obeys the exit-code discipline for the strict flag. -/
theorem mainRun_spec (env : Env) :
    ∃ c, (mainRun env).st.conclusions = [c] ∧
      (mainRun env).st.exitCode = c.exit ∧
      okConcl (initDiag env).strict c := by
  unfold mainRun
  by_cases h1 : env.playwrightPresent = false
  · rw [if_pos h1]
    exact ⟨⟨"failed", "installable-missing", 1, none⟩, rfl, rfl,
      Or.inr (Or.inl ⟨rfl, rfl⟩)⟩
  · rw [if_neg h1]
    by_cases h2 : (initDiag env).envSkipBrowserDownload = true
    · rw [if_pos h2]
      exact ⟨⟨"skipped", "binary-installation-blocked",
        if (initDiag env).strict then 1 else 0, none⟩, rfl, rfl,
        Or.inr (Or.inr ⟨rfl, rfl⟩)⟩
    · rw [if_neg h2]
      by_cases h3 : env.browsersReadyFirst = true
      · rw [if_pos h3]
        rcases serverPhase_spec env (initState env) with ⟨c, hc1, hc2, hc3⟩
        exact ⟨c, by simpa [initState] using hc1, hc2, hc3⟩
      · rw [if_neg h3]
        by_cases h4 : env.installStatusOk = false
        · rw [if_pos h4]
          by_cases h5 : isBlockedDownloadError env.installOutput = true
          · rw [if_pos h5]
            exact ⟨⟨"skipped", "binary-installation-blocked",
              if (initDiag env).strict then 1 else 0, none⟩, rfl, rfl,
              Or.inr (Or.inr ⟨rfl, rfl⟩)⟩
          · rw [if_neg h5]
            by_cases h6 : ((initDiag env).ci && !(initDiag env).strict) = true
            · rw [if_pos h6]
              have hstrict : (initDiag env).strict = false := by
                cases hst : (initDiag env).strict
                · rfl
                · rw [hst] at h6
                  simp at h6
              exact ⟨⟨"skipped", "binary-installation-blocked", 0, none⟩, rfl, rfl,
                Or.inr (Or.inr ⟨rfl, by simp [hstrict]⟩)⟩
            · rw [if_neg h6]
              exact ⟨⟨"failed", "installable-missing", 1, none⟩, rfl, rfl,
                Or.inr (Or.inl ⟨rfl, rfl⟩)⟩
        · rw [if_neg h4]
          by_cases h7 : env.browsersReadySecond = true
          · rw [if_pos h7]
            rcases serverPhase_spec env (initState env) with ⟨c, hc1, hc2, hc3⟩
            exact ⟨c, by simpa [initState] using hc1, hc2, hc3⟩
          · rw [if_neg h7]
            by_cases h8 : ((initDiag env).ci && !(initDiag env).strict) = true
            · rw [if_pos h8]
              have hstrict : (initDiag env).strict = false := by
                cases hst : (initDiag env).strict
                · rfl
                · rw [hst] at h8
                  simp at h8
              exact ⟨⟨"skipped", "binary-installation-blocked", 0, none⟩, rfl, rfl,
                Or.inr (Or.inr ⟨rfl, by simp [hstrict]⟩)⟩
            · rw [if_neg h8]
              exact ⟨⟨"failed", "installable-missing", 1, none⟩, rfl, rfl,
                Or.inr (Or.inl ⟨rfl, rfl⟩)⟩

/-- Counterexample to claim C1 as stated: when the server never becomes
reachable the run does conclude failed with exit code 1, but the recorded
classification is test-failure, not connectivity-failure, because conclude
overwrites the classification at the terminal call site. -/
theorem server_unreachable_counterexample :
    (mainRun envNoHost).st.diag.result = "failed" ∧
    (mainRun envNoHost).st.exitCode = 1 ∧
    (mainRun envNoHost).st.diag.classification = "test-failure" ∧
    (mainRun envNoHost).st.diag.classification ≠ "connectivity-failure" := by
  refine ⟨by decide, by decide, by decide, by decide⟩

/-- Claim C1, amended: if the static server never becomes reachable
(selectedHost is null) the run concludes with status failed and exit code 1;
the connectivity-failure classification is assigned when the failure is
detected and is carried in the conclusion details, but the terminal recorded
classification is test-failure. -/
theorem server_unreachable_concludes (env : Env)
    (h1 : env.playwrightPresent = true)
    (h2 : (initDiag env).envSkipBrowserDownload = false)
    (h3 : env.browsersReadyFirst = true)
    (h4 : env.selectedHost = none) :
    (mainRun env).st.diag.result = "failed" ∧
    (mainRun env).st.exitCode = 1 ∧
    (mainRun env).st.conclusions =
      [⟨"failed", "test-failure", 1, some "connectivity-failure"⟩] ∧
    (mainRun env).st.diag.classification = "test-failure" := by
  have e1 : ¬(env.playwrightPresent = false) := by simp [h1]
  have e2 : ¬((initDiag env).envSkipBrowserDownload = true) := by simp [h2]
  unfold mainRun
  rw [if_neg e1, if_neg e2, if_pos h3]
  unfold serverPhase tryBody
  rw [h4]
  exact ⟨rfl, rfl, rfl, rfl⟩

/-- Witness for the amended C1 in a concrete unreachable-server environment. -/
theorem server_unreachable_concludes_witness :
    (mainRun envNoHost).st.diag.result = "failed" ∧
    (mainRun envNoHost).st.exitCode = 1 ∧
    (mainRun envNoHost).st.conclusions =
      [⟨"failed", "test-failure", 1, some "connectivity-failure"⟩] ∧
    (mainRun envNoHost).st.diag.classification = "test-failure" :=
  server_unreachable_concludes envNoHost rfl rfl rfl rfl

/-- Counterexample to claim C2 as stated: a connectivity-failure error reaching
the terminal error handler in non-strict mode concludes failed with exit code
1, although the claim counts connectivity-failure as infrastructure-class and
demands a skipped conclusion with exit code 0. -/
theorem error_handler_policy_counterexample :
    resolvedClassification stRunning.diag "ECONNREFUSED" = "connectivity-failure" ∧
    stRunning.diag.strict = false ∧
    (catchHandler stRunning "ECONNREFUSED").diag.result = "failed" ∧
    (catchHandler stRunning "ECONNREFUSED").exitCode = 1 ∧
    (catchHandler stRunning "ECONNREFUSED").diag.result ≠ "skipped" := by
  refine ⟨by decide, rfl, by decide, by decide, by decide⟩

/-- Claim C2, amended: in the terminal error handler of main, only the
classifications binary-installation-failure and browser-runtime-failure are
downgraded to a skipped conclusion (exit 1 exactly in strict mode); every
other classification, including connectivity-failure and application-failure,
concludes failed with exit code 1 regardless of mode. -/
theorem error_handler_policy (st : MainState) (e : String) :
    ((resolvedClassification st.diag e = "binary-installation-failure" ∨
      resolvedClassification st.diag e = "browser-runtime-failure") →
      (catchHandler st e).conclusions = st.conclusions ++
        [⟨"skipped", "binary-installation-blocked",
          if st.diag.strict then 1 else 0, none⟩] ∧
      (catchHandler st e).diag.result = "skipped" ∧
      (catchHandler st e).exitCode = (if st.diag.strict then 1 else 0)) ∧
    (¬(resolvedClassification st.diag e = "binary-installation-failure" ∨
       resolvedClassification st.diag e = "browser-runtime-failure") →
      (catchHandler st e).conclusions = st.conclusions ++
        [⟨"failed", "test-failure", 1, some (resolvedClassification st.diag e)⟩] ∧
      (catchHandler st e).diag.result = "failed" ∧
      (catchHandler st e).exitCode = 1) := by
  constructor
  · intro h
    have h' : (catchUpdatedDiag st.diag e).classification = "binary-installation-failure"
        ∨ (catchUpdatedDiag st.diag e).classification = "browser-runtime-failure" := h
    unfold catchHandler
    rw [if_pos h']
    exact ⟨rfl, rfl, rfl⟩
  · intro h
    have h' : ¬((catchUpdatedDiag st.diag e).classification = "binary-installation-failure"
        ∨ (catchUpdatedDiag st.diag e).classification = "browser-runtime-failure") := h
    unfold catchHandler
    rw [if_neg h']
    exact ⟨rfl, rfl, rfl⟩

/-- Witness for the amended C2 at a concrete connectivity-class error. -/
theorem error_handler_policy_witness :
    (catchHandler stRunning "ECONNREFUSED").conclusions = stRunning.conclusions ++
      [⟨"failed", "test-failure", 1,
        some (resolvedClassification stRunning.diag "ECONNREFUSED")⟩] ∧
    (catchHandler stRunning "ECONNREFUSED").diag.result = "failed" ∧
    (catchHandler stRunning "ECONNREFUSED").exitCode = 1 :=
  (error_handler_policy stRunning "ECONNREFUSED").2 (by decide)

/-- Claim C3: exactly one conclusion fires per modelled run of main, and
re-invoking the terminal path (the guarded finally block) on a state whose
final line is already recorded alters nothing, so the recorded result and
classification stay as first written. -/
theorem conclusion_first_write_wins :
    (∀ env : Env, ((mainRun env).st.conclusions).length = 1) ∧
    (∀ (st : MainState) (c : Conclusion), st.finalLine = some c →
      finalize st = st) := by
  constructor
  · intro env
    rcases mainRun_spec env with ⟨c, h1, _, _⟩
    rw [h1]
    rfl
  · intro st c h
    exact finalize_of_finalLine st c h

/-- Witness for C3: the passing run fires one conclusion, and the finally
block leaves a concluded state untouched. -/
theorem conclusion_first_write_wins_witness :
    ((mainRun envPass).st.conclusions).length = 1 ∧
    finalize stConcluded = stConcluded :=
  ⟨conclusion_first_write_wins.1 envPass,
    conclusion_first_write_wins.2 stConcluded ⟨"passed", "success", 0, none⟩ rfl⟩

/-- Claim C5: for every conclusion a run of main can reach, the process exit
code is that conclusion's; it is 0 exactly when the status is passed or a
non-strict skipped, and 1 exactly when the status is failed or a strict
skipped. -/
theorem conclusion_exit_code_policy (env : Env) (c : Conclusion)
    (hc : c ∈ (mainRun env).st.conclusions) :
    (mainRun env).st.exitCode = c.exit ∧
    (c.exit = 0 ↔ (c.status = "passed" ∨
      (c.status = "skipped" ∧ (initDiag env).strict = false))) ∧
    (c.exit = 1 ↔ (c.status = "failed" ∨
      (c.status = "skipped" ∧ (initDiag env).strict = true))) := by
  rcases mainRun_spec env with ⟨c0, h1, h2, h3⟩
  rw [h1] at hc
  simp only [List.mem_singleton] at hc
  subst hc
  rcases h3 with ⟨hs, he⟩ | ⟨hs, he⟩ | ⟨hs, he⟩
  · refine ⟨h2, ?_, ?_⟩ <;> rw [hs, he] <;> simp
  · refine ⟨h2, ?_, ?_⟩ <;> rw [hs, he] <;> simp
  · cases hstrict : (initDiag env).strict <;> rw [hstrict] at he <;> simp at he <;>
      refine ⟨h2, ?_, ?_⟩ <;> rw [hs, he] <;> simp [hstrict]

/-- Witness for C5 at the passing run's conclusion. -/
theorem conclusion_exit_code_policy_witness :
    (mainRun envPass).st.exitCode = Conclusion.exit ⟨"passed", "success", 0, none⟩ ∧
    (Conclusion.exit ⟨"passed", "success", 0, none⟩ = 0 ↔
      (Conclusion.status ⟨"passed", "success", 0, none⟩ = "passed" ∨
        (Conclusion.status ⟨"passed", "success", 0, none⟩ = "skipped" ∧
          (initDiag envPass).strict = false))) ∧
    (Conclusion.exit ⟨"passed", "success", 0, none⟩ = 1 ↔
      (Conclusion.status ⟨"passed", "success", 0, none⟩ = "failed" ∨
        (Conclusion.status ⟨"passed", "success", 0, none⟩ = "skipped" ∧
          (initDiag envPass).strict = true))) :=
  conclusion_exit_code_policy envPass ⟨"passed", "success", 0, none⟩ (by decide)

/-- Counterexample to claim C6 as stated: with the skip-download flag set but
the playwright package missing, the run concludes failed with exit code 1
instead of skipping, because main resolves playwright before honouring the
flag. -/
theorem skip_download_counterexample :
    envSkipSetNoPlaywright.skipVar = some "1" ∧
    (mainRun envSkipSetNoPlaywright).st.diag.result = "failed" ∧
    (mainRun envSkipSetNoPlaywright).st.conclusions =
      [⟨"failed", "installable-missing", 1, none⟩] ∧
    (mainRun envSkipSetNoPlaywright).st.exitCode = 1 := by
  refine ⟨rfl, by decide, by decide, by decide⟩

/-- Claim C6, amended: when PLAYWRIGHT_SKIP_BROWSER_DOWNLOAD is 1 or true and
the playwright package resolves, the run skips early with status skipped and
exit code 0 unless strict mode is set (then 1), without invoking the browser
launcher; when the package is missing, the failed installable-missing
conclusion takes precedence over the flag. -/
theorem skip_download_early_skip (env : Env)
    (h1 : env.playwrightPresent = true)
    (h2 : env.skipVar = some "1" ∨ env.skipVar = some "true") :
    (mainRun env).st.conclusions =
      [⟨"skipped", "binary-installation-blocked",
        if (initDiag env).strict then 1 else 0, none⟩] ∧
    (mainRun env).st.diag.result = "skipped" ∧
    (mainRun env).st.exitCode = (if (initDiag env).strict then 1 else 0) ∧
    (mainRun env).launchAttempted = false := by
  have e1 : ¬(env.playwrightPresent = false) := by simp [h1]
  have e2 : (initDiag env).envSkipBrowserDownload = true := by
    rcases h2 with h | h <;> simp [initDiag, h]
  unfold mainRun
  rw [if_neg e1, if_pos e2]
  exact ⟨rfl, rfl, rfl, rfl⟩

/-- Witness for the amended C6 in a concrete environment with the flag set. -/
theorem skip_download_early_skip_witness :
    (mainRun envSkipSet).st.conclusions =
      [⟨"skipped", "binary-installation-blocked",
        if (initDiag envSkipSet).strict then 1 else 0, none⟩] ∧
    (mainRun envSkipSet).st.diag.result = "skipped" ∧
    (mainRun envSkipSet).st.exitCode = (if (initDiag envSkipSet).strict then 1 else 0) ∧
    (mainRun envSkipSet).launchAttempted = false :=
  skip_download_early_skip envSkipSet rfl (Or.inl rfl)

end UiSmoke
